import Mathlib

/-!
Verification development for the `responsive-images-generator` repository.

The repository is a CLI (`make_responsive_images/main.py`) over two helpers,
`resize_image` and `make_html` (in `make_responsive_images/utils.py`).
`main.py` is embedded faithfully below; the two helpers are not part of the
provided sources, so they are modelled from the specification where a claim
needs their behaviour.  Python exception propagation is embedded as `Except`
propagation; the side effect of deleting the source file is tracked in an
explicit `Trace` record.
-/

namespace RespImg

/-! ### Python `int()` on a string, restricted to ASCII decimal literals

`main.py` parses widths with `[int(width) for width in widths.split(",")]`.
Python `int(s)` strips surrounding whitespace, allows an optional sign, and
then requires a nonempty digit run in which single underscores may separate
digits.  Malformed input raises `ValueError` (the spec's `ArgumentError`). -/

/-- Numeric value of a decimal digit character. -/
def digitVal (c : Char) : Nat := c.toNat - 48

/-- Continue parsing a Python decimal digit run (underscores allowed singly,
between digits) with accumulator `acc`. -/
def pyDigitsAux (acc : Nat) : List Char → Option Nat
  | [] => some acc
  | '_' :: rest =>
    match rest with
    | [] => none
    | c :: cs => if c.isDigit then pyDigitsAux (acc * 10 + digitVal c) cs else none
  | c :: cs => if c.isDigit then pyDigitsAux (acc * 10 + digitVal c) cs else none

/-- Parse a nonempty Python decimal digit run (e.g. `600`, `1_000`). -/
def pyDigits : List Char → Option Nat
  | [] => none
  | c :: cs => if c.isDigit then pyDigitsAux (digitVal c) cs else none

/-- Strip leading and trailing whitespace, as Python `str.strip()` does. -/
def trimChars (cs : List Char) : List Char :=
  ((cs.dropWhile Char.isWhitespace).reverse.dropWhile Char.isWhitespace).reverse

/-- Python `int(s)` for decimal string literals: strip whitespace, optional
sign, digit run.  `none` models a raised `ValueError`. -/
def pyInt (s : String) : Option Int :=
  match trimChars s.toList with
  | '+' :: rest => (pyDigits rest).map (fun n => (n : Int))
  | '-' :: rest => (pyDigits rest).map (fun n => -(n : Int))
  | cs => (pyDigits cs).map (fun n => (n : Int))

/-- Python `s.split(",")`: split on every comma, keeping empty pieces
(so `"".split(",") == [""]`). -/
def splitOnComma : List Char → List (List Char)
  | [] => [[]]
  | c :: cs =>
    if c = ',' then [] :: splitOnComma cs
    else
      match splitOnComma cs with
      | [] => [[c]]
      | g :: gs => (c :: g) :: gs

/-- `main.py` lines 103-104:
`widths_split = widths.split(",")` then
`widths_list = [int(width) for width in widths_split]`.
The first malformed token aborts with that token as the error. -/
def parseTokens : List (List Char) → Except (List Char) (List Int)
  | [] => .ok []
  | t :: ts =>
    match pyInt (String.mk t) with
    | none => .error t
    | some n => (parseTokens ts).map (fun ns => n :: ns)

/-- Width parsing of the `image` command, from the `widths` option string. -/
def parseWidths (s : String) : Except (List Char) (List Int) :=
  parseTokens (splitOnComma s.toList)

/-! ### The `image` command of `main.py`

The CLI options of `image` (lines 49-86) become a record.  `resize_image`
and `make_html` perform file I/O, so in the embedding of the command's
control flow they are oracles (`Except`-valued functions standing for "the
call either returns or raises").  The `Trace` records the observable side
effects: whether (and with which arguments) the resizer was invoked, and
whether the source file was deleted (`file.unlink()`, line 131). -/

/-- Options accepted by the `image` command (`main.py` lines 49-86), with
their Python defaults noted: `widths = "600,1000,1400"`, `html = true`,
`lazy = false`, `fmt = "webp"`, `qual = 100`, `lower = true`,
`dashes = true`, `flask = false`, `delete = true`. -/
structure CliOpts where
  image : String
  widths : String
  html : Bool
  classes : Option String
  img_sizes : String
  lazy : Bool
  alt : String
  dirOpt : Option String
  fmt : String
  qual : Int
  lower : Bool
  dashes : Bool
  flask : Bool
  delete : Bool
deriving DecidableEq

/-- The argument tuple `main.py` passes to `resize_image` (lines 107-114). -/
structure ResizeArgs where
  file : String
  widths : List Int
  fmt : String
  qual : Int
  lower : Bool
  dashes : Bool
deriving DecidableEq

/-- Observable side effects of one run of the `image` command. -/
structure Trace where
  /-- `some args` iff `resize_image` was invoked, with the arguments passed. -/
  resizeArgs : Option ResizeArgs
  /-- whether `file.unlink()` executed. -/
  deleted : Bool
deriving DecidableEq

/-- Errors that abort the `image` command: a `ValueError` from `int()` on a
width token (the spec's `ArgumentError`), or an exception propagating out of
`resize_image` or `make_html`. -/
inductive CliErr where
  | argError (tok : String)
  | resizeError
  | htmlError
deriving DecidableEq

/-- The argument record `image` builds for `resize_image` once the widths
string parsed to `ws` (`main.py` lines 107-114). -/
def resizeArgsOf (opts : CliOpts) (ws : List Int) : ResizeArgs :=
  ⟨opts.image, ws, opts.fmt, opts.qual, opts.lower, opts.dashes⟩

/-- The `image` command (`main.py` lines 49-136): parse `widths`, call
`resize_image`, optionally call `make_html`, optionally delete the source
file, in that order.  A Python exception at any step propagates, skipping
every later step. -/
def image (opts : CliOpts)
    (resizeImpl : ResizeArgs → Except Unit (List String))
    (htmlImpl : List String → Except Unit String) :
    Except CliErr (List String × Option String) × Trace :=
  match parseWidths opts.widths with
  | .error tok => (.error (.argError (String.mk tok)), ⟨none, false⟩)
  | .ok widths_list =>
    let args : ResizeArgs := resizeArgsOf opts widths_list
    match resizeImpl args with
    | .error _ => (.error .resizeError, ⟨some args, false⟩)
    | .ok filenames =>
      if opts.html then
        match htmlImpl filenames with
        | .error _ => (.error .htmlError, ⟨some args, false⟩)
        | .ok tag =>
          if opts.delete then (.ok (filenames, some tag), ⟨some args, true⟩)
          else (.ok (filenames, some tag), ⟨some args, false⟩)
      else
        if opts.delete then (.ok (filenames, none), ⟨some args, true⟩)
        else (.ok (filenames, none), ⟨some args, false⟩)

/-! ### The version callback of `main.py` -/

/-- `_version_callback` (`main.py` lines 25-28): when the flag is set, echo
`"{app_name} v{version}"` and raise `typer.Exit`.  `some msg` models the
echo-and-exit; `none` models falling through. -/
def version_callback (appName appVersion : String) (value : Bool) : Option String :=
  if value then some (appName ++ " v" ++ appVersion) else none

/-- Result of one CLI invocation: either the eager version callback exited
first, or the `image` command ran to its own result. -/
inductive CliRun where
  | versionExit (msg : String)
  | completed (result : Except CliErr (List String × Option String) × Trace)

/-- One CLI invocation.  The `--version`/`-v` option is declared eager
(`is_eager=True`, line 39), so typer runs `_version_callback` before any
command; a raised `typer.Exit` ends the process before `image` starts. -/
def runCli (appName appVersion : String) (versionFlag : Bool) (opts : CliOpts)
    (resizeImpl : ResizeArgs → Except Unit (List String))
    (htmlImpl : List String → Except Unit String) : CliRun :=
  match version_callback appName appVersion versionFlag with
  | some msg => .versionExit msg
  | none => .completed (image opts resizeImpl htmlImpl)

/-! ### The resizer, modelled from the spec

`resize_image` lives in `make_responsive_images/utils.py`, which is not among
the provided sources; only its call site in `main.py` is.  Its naming
behaviour is modelled from the spec (section 4.1). -/

/-- Python `pathlib.PurePath.stem`: the file name without its last suffix.
The suffix is `name[i:]` for `i` the index of the last dot, provided
`0 < i < len(name) - 1`; otherwise there is no suffix. -/
def rfindDot : List Char → Option Nat
  | [] => none
  | c :: cs =>
    match rfindDot cs with
    | some i => some (i + 1)
    | none => if c = '.' then some 0 else none

/-- The stem of a file name, as Python `Path(name).stem` computes it. -/
def pyStem (name : String) : String :=
  let cs := name.toList
  match rfindDot cs with
  | none => name
  | some i => if 0 < i ∧ i < cs.length - 1 then String.mk (cs.take i) else name

/-- Lowercase every character of a string. -/
def lowerStr (s : String) : String :=
  String.mk (s.toList.map Char.toLower)

/-- Replace every underscore by a hyphen. -/
def dashStr (s : String) : String :=
  String.mk (s.toList.map (fun c => if c = '_' then '-' else c))

/-- Modelled from the spec: the stem transformation of `resize_image`
(`utils.py` is missing from the sources).  Spec 4.1: "lowercase the stem if
`lowercase` is set, replace underscores with hyphens if `dashes` is set". -/
def transformStem (lower dashes : Bool) (stem : String) : String :=
  let s1 := if lower then lowerStr stem else stem
  if dashes then dashStr s1 else s1

/-- Modelled from the spec: the output filename `resize_image` uses for one
width.  Spec 4.1: "append `-{width}.{format}`" to the transformed stem. -/
def mkFilename (file : String) (w : Int) (fmt : String) (lower dashes : Bool) : String :=
  transformStem lower dashes (pyStem file) ++ "-" ++ toString w ++ "." ++ fmt

/-- Modelled from the spec: `resize_image` from `utils.py` (missing from the
sources).  Spec 4.1: "for each width in order, produce a raster scaled to
that width ... and write to a filename derived from the original file's
stem"; "Output: ordered sequence of filenames ..., one per input width, in
input order".  The raster/encode work is I/O outside the naming contract;
only the returned filename sequence is modelled.  `qual` does not influence
names. -/
def resize_image (file : String) (widths : List Int) (fmt : String) (qual : Int)
    (lower dashes : Bool) : List String :=
  match widths with
  | [] => []
  | w :: ws => mkFilename file w fmt lower dashes :: resize_image file ws fmt qual lower dashes

/-! ### The HTML builder, modelled from the spec

`make_html` (`build_tag` in the spec) also lives in the missing `utils.py`.
It is modelled from spec 4.2: each filename carries its width ("parsed back
out of the filename or passed alongside" — here passed alongside as a pair);
the `srcset` lists `path width-descriptor` pairs in ascending width order;
`src` is the widest variant's path; `loading="lazy"` appears only when
`lazy` is set; an empty filename list signals `FormatError`. -/

/-- The single failure of `build_tag`: an empty filename list (spec 4.2). -/
inductive FormatError where
  | empty
deriving DecidableEq

/-- Width order on `(path, width)` pairs. -/
def wle (p q : String × Int) : Prop := p.2 ≤ q.2

instance : DecidableRel wle := fun p q => inferInstanceAs (Decidable (p.2 ≤ q.2))

instance : IsTotal (String × Int) wle := ⟨fun p q => Int.le_total p.2 q.2⟩

instance : IsTrans (String × Int) wle := ⟨fun _ _ _ h1 h2 => le_trans h1 h2⟩

/-- The `(path, width)` pairs in ascending width order. -/
def sortPairs (pairs : List (String × Int)) : List (String × Int) :=
  List.insertionSort wle pairs

/-- Modelled from the spec: path rendering of `make_html` (`utils.py` is
missing).  Spec 4.2 and design note: `dir_prefix` is prepended as a plain
path segment; the framework-helper mode wraps the path in a
static-asset-resolution call syntax (quoting elided). -/
def renderPath (useFlask : Bool) (dirOpt : Option String) (fname : String) : String :=
  let joined :=
    match dirOpt with
    | some d => d ++ "/" ++ fname
    | none => fname
  if useFlask then "url_for(static, " ++ joined ++ ")" else joined

/-- One `srcset` entry: rendered path, a space, and the width descriptor. -/
def srcsetEntry (useFlask : Bool) (dirOpt : Option String) (p : String × Int) : String :=
  renderPath useFlask dirOpt p.1 ++ " " ++ toString p.2 ++ "w"

/-- The `srcset` entries, one per filename, in ascending width order. -/
def srcsetEntries (useFlask : Bool) (dirOpt : Option String)
    (pairs : List (String × Int)) : List String :=
  (sortPairs pairs).map (srcsetEntry useFlask dirOpt)

/-- The attribute list of the generated `<img>` element (spec 4.2): `src`,
`srcset`, `sizes`, optional `class`, optional `loading="lazy"`, `alt`. -/
def imgAttrs (srcPath : String) (entries : List String) (classes : Option String)
    (img_sizes : String) (lazy : Bool) (alt : String) : List (String × String) :=
  [("src", srcPath), ("srcset", String.intercalate ", " entries), ("sizes", img_sizes)]
    ++ (match classes with
        | some c => [("class", c)]
        | none => [])
    ++ (if lazy then [("loading", "lazy")] else [])
    ++ [("alt", alt)]

/-- Render an attribute list as `name="value"` segments. -/
def renderAttrs (attrs : List (String × String)) : String :=
  String.join (attrs.map (fun a => " " ++ a.1 ++ "=\"" ++ a.2 ++ "\""))

/-- Render one `<img>` element from its attributes. -/
def renderTag (attrs : List (String × String)) : String :=
  "<img" ++ renderAttrs attrs ++ ">"

/-- Modelled from the spec: `build_tag` / `make_html` from the missing
`utils.py`.  Spec 4.2: one `<img>` string; `src` is the widest variant's
path; `srcset` is comma-separated entries in ascending order; signals
`FormatError` only if `filenames` is empty. -/
def make_html (pairs : List (String × Int)) (classes : Option String)
    (img_sizes : String) (lazy : Bool) (alt : String) (dirOpt : Option String)
    (useFlask : Bool) : Except FormatError String :=
  match (sortPairs pairs).getLast? with
  | none => .error .empty
  | some widest =>
    .ok (renderTag (imgAttrs (renderPath useFlask dirOpt widest.1)
      (srcsetEntries useFlask dirOpt pairs) classes img_sizes lazy alt))

/-! ### Helper lemmas -/

theorem resize_image_eq_map (file : String) (widths : List Int) (fmt : String)
    (qual : Int) (lower dashes : Bool) :
    resize_image file widths fmt qual lower dashes
      = widths.map (fun w => mkFilename file w fmt lower dashes) := by
  induction widths with
  | nil => rfl
  | cons w ws ih => simp [resize_image, ih]

theorem mem_of_getLastEq {α : Type} : ∀ (l : List α) (a : α), l.getLast? = some a → a ∈ l
  | [], _, h => by simp at h
  | [b], a, h => by
    simp only [List.getLast?_singleton, Option.some.injEq] at h
    simp [h]
  | b :: c :: l, a, h => by
    rw [List.getLast?_cons_cons] at h
    exact List.mem_cons_of_mem _ (mem_of_getLastEq (c :: l) a h)

theorem sorted_le_getLast :
    ∀ (l : List (String × Int)), List.Sorted wle l →
      ∀ (q : String × Int), l.getLast? = some q → ∀ p ∈ l, wle p q
  | [], _, _, hq => by simp at hq
  | [b], _, q, hq => by
    simp only [List.getLast?_singleton, Option.some.injEq] at hq
    intro p hp
    simp only [List.mem_singleton] at hp
    subst hq hp
    exact le_refl _
  | b :: c :: l, hs, q, hq => by
    rw [List.getLast?_cons_cons] at hq
    rw [List.sorted_cons] at hs
    intro p hp
    rcases List.mem_cons.mp hp with rfl | hp2
    · exact hs.1 q (mem_of_getLastEq (c :: l) q hq)
    · exact sorted_le_getLast (c :: l) hs.2 q hq p hp2

theorem sortPairs_perm (pairs : List (String × Int)) : (sortPairs pairs).Perm pairs :=
  List.perm_insertionSort wle pairs

theorem sortPairs_length (pairs : List (String × Int)) :
    (sortPairs pairs).length = pairs.length :=
  List.length_insertionSort wle pairs

theorem sortPairs_sorted (pairs : List (String × Int)) :
    List.Sorted wle (sortPairs pairs) :=
  List.sorted_insertionSort wle pairs

theorem image_resizeArgs_of_ok (opts : CliOpts)
    (r : ResizeArgs → Except Unit (List String))
    (h : List String → Except Unit String) (ws : List Int)
    (hp : parseWidths opts.widths = .ok ws) :
    (image opts r h).2.resizeArgs = some (resizeArgsOf opts ws) := by
  cases hr : r (resizeArgsOf opts ws) with
  | error e => simp [image, hp, hr]
  | ok fns =>
    cases hh : opts.html with
    | false =>
      cases hd : opts.delete with
      | false => simp [image, hp, hr, hh, hd]
      | true => simp [image, hp, hr, hh, hd]
    | true =>
      cases hm : h fns with
      | error e => simp [image, hp, hr, hh, hm]
      | ok t =>
        cases hd : opts.delete with
        | false => simp [image, hp, hr, hh, hm, hd]
        | true => simp [image, hp, hr, hh, hm, hd]

theorem sortPairs_eq_nil_iff (pairs : List (String × Int)) :
    sortPairs pairs = [] ↔ pairs = [] := by
  constructor
  · intro h
    have := sortPairs_length pairs
    rw [h] at this
    exact List.eq_nil_of_length_eq_zero this.symm
  · intro h
    subst h
    rfl

/-! ### Claim theorems -/

/-- Claim C1: for every valid non-empty list of widths `[w1, ..., wn]`, the
resize operation returns exactly `n` output filenames, in the same order as
the input widths (count and order of generated files equals count and order
of the width list). -/
theorem resize_count_and_order (file : String) (widths : List Int) (fmt : String)
    (qual : Int) (lower dashes : Bool) (hne : widths ≠ []) :
    (resize_image file widths fmt qual lower dashes).length = widths.length ∧
    resize_image file widths fmt qual lower dashes
      = widths.map (fun w => mkFilename file w fmt lower dashes) := by
  refine ⟨?_, resize_image_eq_map file widths fmt qual lower dashes⟩
  rw [resize_image_eq_map]
  exact List.length_map widths _

theorem resize_count_and_order_witness :
    (([400, 800] : List Int) ≠ []) ∧
    ((resize_image "photo_one.JPG" [400, 800] "webp" 100 true true).length
        = ([400, 800] : List Int).length ∧
      resize_image "photo_one.JPG" [400, 800] "webp" 100 true true
        = ([400, 800] : List Int).map
            (fun w => mkFilename "photo_one.JPG" w "webp" true true)) :=
  ⟨by decide, resize_count_and_order "photo_one.JPG" [400, 800] "webp" 100 true true
    (by decide)⟩

/-- Claim C2: each output filename is derived from the original file's stem
by lowercasing it when `lowercase` is set, replacing underscores with
hyphens when `dashes` is set, then appending `-{width}.{format}`; in
particular, source `photo_one.JPG` with widths `[400, 800]`, format `webp`,
lowercase and dashes yields exactly
`["photo-one-400.webp", "photo-one-800.webp"]`. -/
theorem resize_filename_derivation :
    (∀ (file : String) (widths : List Int) (fmt : String) (qual : Int)
        (lower dashes : Bool),
      resize_image file widths fmt qual lower dashes
        = widths.map (fun w =>
            transformStem lower dashes (pyStem file) ++ "-" ++ toString w ++ "." ++ fmt)) ∧
    resize_image "photo_one.JPG" [400, 800] "webp" 100 true true
      = ["photo-one-400.webp", "photo-one-800.webp"] := by
  constructor
  · intro file widths fmt qual lower dashes
    exact resize_image_eq_map file widths fmt qual lower dashes
  · rfl

/-- Claim C3: for every widths string containing a token that is not a valid
integer (e.g. `"600,abc"`), the CLI signals an `ArgumentError` during width
parsing, and this happens before any file I/O: the command ends with the
argument error, the resizer is never invoked, and nothing is deleted. -/
theorem widths_argerror_before_io :
    (∀ (opts : CliOpts) (r : ResizeArgs → Except Unit (List String))
        (h : List String → Except Unit String) (tok : List Char),
      parseWidths opts.widths = .error tok →
        image opts r h = (.error (.argError (String.mk tok)), ⟨none, false⟩)) ∧
    parseWidths "600,abc" = .error ['a', 'b', 'c'] := by
  constructor
  · intro opts r h tok hpe
    simp [image, hpe]
  · rfl

theorem widths_argerror_before_io_witness :
    parseWidths "600,abc" = .error ['a', 'b', 'c'] ∧
    image ⟨"x.jpg", "600,abc", true, none, "100vw", false, "", none, "webp", 100,
        true, true, false, true⟩ (fun a => .ok [a.file]) (fun _ => .ok "t")
      = (.error (.argError (String.mk ['a', 'b', 'c'])), ⟨none, false⟩) :=
  ⟨by rfl,
    widths_argerror_before_io.1
      ⟨"x.jpg", "600,abc", true, none, "100vw", false, "", none, "webp", 100,
        true, true, false, true⟩
      (fun a => .ok [a.file]) (fun _ => .ok "t") ['a', 'b', 'c'] (by rfl)⟩

/-- Claim C4: when `delete = true`, the original source file is removed only
after all widths have been successfully resized; if the resize operation
fails (raises), the source file remains on disk.  Stated as: a run that
deleted the file had `delete` set and a successful resize call; a run whose
resize call raises ends in `resizeError` with nothing deleted; and a fully
successful run with `delete` set does delete the file. -/
theorem delete_only_after_resize_success (opts : CliOpts)
    (r : ResizeArgs → Except Unit (List String))
    (h : List String → Except Unit String) :
    ((image opts r h).2.deleted = true →
      opts.delete = true ∧
      ∃ ws fns, parseWidths opts.widths = .ok ws ∧ r (resizeArgsOf opts ws) = .ok fns) ∧
    (∀ ws, parseWidths opts.widths = .ok ws → r (resizeArgsOf opts ws) = .error () →
      image opts r h = (.error .resizeError, ⟨some (resizeArgsOf opts ws), false⟩)) ∧
    (∀ ws fns t, opts.delete = true → parseWidths opts.widths = .ok ws →
      r (resizeArgsOf opts ws) = .ok fns →
      (opts.html = true → h fns = .ok t) →
      (image opts r h).2.deleted = true) := by
  refine ⟨?_, ?_, ?_⟩
  · cases hp : parseWidths opts.widths with
    | error tok => simp [image, hp]
    | ok ws =>
      cases hr : r (resizeArgsOf opts ws) with
      | error e => simp [image, hp, hr]
      | ok fns =>
        cases hh : opts.html with
        | false =>
          cases hd : opts.delete with
          | false => simp [image, hp, hr, hh, hd]
          | true =>
            intro _
            exact ⟨rfl, ws, fns, rfl, hr⟩
        | true =>
          cases hm : h fns with
          | error e => simp [image, hp, hr, hh, hm]
          | ok t =>
            cases hd : opts.delete with
            | false => simp [image, hp, hr, hh, hm, hd]
            | true =>
              intro _
              exact ⟨rfl, ws, fns, rfl, hr⟩
  · intro ws hp hr
    simp [image, hp, hr]
  · intro ws fns t hd hp hr hm
    cases hh : opts.html with
    | false => simp [image, hp, hr, hh, hd]
    | true => simp [image, hp, hr, hh, hm hh, hd]

theorem delete_only_after_resize_success_witness :
    (image ⟨"x.jpg", "600", true, none, "100vw", false, "", none, "webp", 100,
        true, true, false, true⟩ (fun _ => .error ()) (fun _ => .ok "t")).2.deleted
        = false ∧
    image ⟨"x.jpg", "600", true, none, "100vw", false, "", none, "webp", 100,
        true, true, false, true⟩ (fun _ => .error ()) (fun _ => .ok "t")
      = (.error .resizeError,
         ⟨some (resizeArgsOf
            ⟨"x.jpg", "600", true, none, "100vw", false, "", none, "webp", 100,
              true, true, false, true⟩ [600]), false⟩) :=
  ⟨by rfl,
    (delete_only_after_resize_success
      ⟨"x.jpg", "600", true, none, "100vw", false, "", none, "webp", 100,
        true, true, false, true⟩
      (fun _ => .error ()) (fun _ => .ok "t")).2.1 [600] (by rfl) (by rfl)⟩

/-- Claim C7: when the `--version` (or `-v`) flag is given, the CLI prints
the application name and version and exits immediately, short-circuiting all
other processing: for every option record and every behaviour of the resize
and HTML oracles, the run is a `versionExit` carrying exactly
`"{name} v{version}"`, so `image` (resize, HTML generation, deletion) never
runs. -/
theorem version_short_circuits (appName appVersion : String) (opts : CliOpts)
    (r : ResizeArgs → Except Unit (List String))
    (h : List String → Except Unit String) :
    runCli appName appVersion true opts r h
      = .versionExit (appName ++ " v" ++ appVersion) := by
  rfl

/-- Claim C9: if `html = true` and HTML-tag generation raises after the
resize step completed, the source file is not deleted even when
`delete = true`; deletion executes only when every preceding step (width
parsing, resize, and HTML generation when requested) completed without
error.  Stated as: a run that deleted the file ended in overall success, and
a run whose HTML step raises ends in `htmlError` with `deleted = false`. -/
theorem html_failure_blocks_delete (opts : CliOpts)
    (r : ResizeArgs → Except Unit (List String))
    (h : List String → Except Unit String) :
    ((image opts r h).2.deleted = true → ∃ v, (image opts r h).1 = .ok v) ∧
    (∀ ws fns, opts.html = true → parseWidths opts.widths = .ok ws →
      r (resizeArgsOf opts ws) = .ok fns → h fns = .error () →
      image opts r h
        = (.error .htmlError, ⟨some (resizeArgsOf opts ws), false⟩)) := by
  constructor
  · cases hp : parseWidths opts.widths with
    | error tok => simp [image, hp]
    | ok ws =>
      cases hr : r (resizeArgsOf opts ws) with
      | error e => simp [image, hp, hr]
      | ok fns =>
        cases hh : opts.html with
        | false =>
          cases hd : opts.delete with
          | false => simp [image, hp, hr, hh, hd]
          | true =>
            intro _
            exact ⟨(fns, none), by simp [image, hp, hr, hh, hd]⟩
        | true =>
          cases hm : h fns with
          | error e => simp [image, hp, hr, hh, hm]
          | ok t =>
            cases hd : opts.delete with
            | false => simp [image, hp, hr, hh, hm, hd]
            | true =>
              intro _
              exact ⟨(fns, some t), by simp [image, hp, hr, hh, hm, hd]⟩
  · intro ws fns hh hp hr hm
    simp [image, hp, hr, hh, hm]

theorem html_failure_blocks_delete_witness :
    (image ⟨"x.jpg", "600", true, none, "100vw", false, "", none, "webp", 100,
        true, true, false, true⟩ (fun a => .ok [a.file]) (fun _ => .error ()))
      = (.error .htmlError,
         ⟨some (resizeArgsOf
            ⟨"x.jpg", "600", true, none, "100vw", false, "", none, "webp", 100,
              true, true, false, true⟩ [600]), false⟩) :=
  (html_failure_blocks_delete
    ⟨"x.jpg", "600", true, none, "100vw", false, "", none, "webp", 100,
      true, true, false, true⟩
    (fun a => .ok [a.file]) (fun _ => .error ())).2 [600] ["x.jpg"]
    (by rfl) (by rfl) (by rfl) (by rfl)

/-- Claim C10: the CLI's width parsing accepts every comma-separated token
that parses as a Python integer, including zero, negative numbers, and
tokens with surrounding whitespace (`"600, -5"` parses to `[600, -5]`), and
the parsed list is handed to the resizer unchanged — no positivity check
happens before `resize_image` is invoked. -/
theorem widths_parsing_lenient :
    parseWidths "600, -5" = .ok [600, -5] ∧
    parseWidths "0,-3, 12 " = .ok [0, -3, 12] ∧
    (∀ (opts : CliOpts) (r : ResizeArgs → Except Unit (List String))
        (h : List String → Except Unit String) (ws : List Int),
      parseWidths opts.widths = .ok ws →
        (image opts r h).2.resizeArgs = some (resizeArgsOf opts ws)) := by
  refine ⟨by rfl, by rfl, ?_⟩
  intro opts r h ws hp
  exact image_resizeArgs_of_ok opts r h ws hp

theorem widths_parsing_lenient_witness :
    parseWidths "600, -5" = .ok [600, -5] ∧
    (image ⟨"x.jpg", "600, -5", false, none, "100vw", false, "", none, "webp",
        100, true, true, false, false⟩ (fun a => .ok [a.file])
        (fun _ => .ok "t")).2.resizeArgs
      = some (resizeArgsOf
          ⟨"x.jpg", "600, -5", false, none, "100vw", false, "", none, "webp",
            100, true, true, false, false⟩ [600, -5]) :=
  ⟨by rfl,
    widths_parsing_lenient.2.2
      ⟨"x.jpg", "600, -5", false, none, "100vw", false, "", none, "webp",
        100, true, true, false, false⟩
      (fun a => .ok [a.file]) (fun _ => .ok "t") [600, -5] (by rfl)⟩

/-- Claim C8, counterexample: with `--fmt png` (outside `jpg|webp`) and a
parsable widths string, the CLI layer does not reject the value: the run
reaches the resizer and forwards `fmt = "png"` in its arguments. -/
theorem fmt_not_rejected_counterexample :
    (image ⟨"x.jpg", "600", false, none, "100vw", false, "", none, "png", 100,
        true, true, false, false⟩ (fun a => .ok [a.file])
        (fun _ => .ok "t")).2.resizeArgs
      = some ⟨"x.jpg", [600], "png", 100, true, true⟩ := by
  rfl

/-- Claim C8 (amended): the CLI declares `--fmt` as a plain string option
(default `"webp"`) with no CLI-level validation: every `--fmt` value,
including values outside `{jpg, webp}`, is forwarded unchanged to the
resizer whenever width parsing succeeds. -/
theorem fmt_forwarded_unvalidated (opts : CliOpts)
    (r : ResizeArgs → Except Unit (List String))
    (h : List String → Except Unit String) (ws : List Int)
    (hp : parseWidths opts.widths = .ok ws) :
    (image opts r h).2.resizeArgs = some (resizeArgsOf opts ws) ∧
    (resizeArgsOf opts ws).fmt = opts.fmt := by
  refine ⟨image_resizeArgs_of_ok opts r h ws hp, rfl⟩

theorem fmt_forwarded_unvalidated_witness :
    parseWidths "600" = .ok [600] ∧
    ((image ⟨"x.jpg", "600", false, none, "100vw", false, "", none, "gif", 50,
        true, true, false, false⟩ (fun a => .ok [a.file])
        (fun _ => .ok "t")).2.resizeArgs
      = some (resizeArgsOf
          ⟨"x.jpg", "600", false, none, "100vw", false, "", none, "gif", 50,
            true, true, false, false⟩ [600]) ∧
     (resizeArgsOf
        ⟨"x.jpg", "600", false, none, "100vw", false, "", none, "gif", 50,
          true, true, false, false⟩ [600]).fmt = "gif") :=
  ⟨by rfl,
    fmt_forwarded_unvalidated
      ⟨"x.jpg", "600", false, none, "100vw", false, "", none, "gif", 50,
        true, true, false, false⟩
      (fun a => .ok [a.file]) (fun _ => .ok "t") [600] (by rfl)⟩

/-- Claim C5: `build_tag` signals a `FormatError` if and only if its
filenames list is empty; for every non-empty filenames list it returns an
HTML string without error. -/
theorem build_tag_error_iff_empty (pairs : List (String × Int))
    (classes : Option String) (img_sizes : String) (lazy : Bool) (alt : String)
    (dirOpt : Option String) (useFlask : Bool) :
    (make_html pairs classes img_sizes lazy alt dirOpt useFlask
        = .error .empty ↔ pairs = []) ∧
    (pairs ≠ [] →
      ∃ s, make_html pairs classes img_sizes lazy alt dirOpt useFlask = .ok s) := by
  constructor
  · constructor
    · intro he
      by_contra hne
      cases hlast : (sortPairs pairs).getLast? with
      | none =>
        exact hne ((sortPairs_eq_nil_iff pairs).mp (List.getLast?_eq_none_iff.mp hlast))
      | some q => simp [make_html, hlast] at he
    · intro he
      subst he
      rfl
  · intro hne
    cases hlast : (sortPairs pairs).getLast? with
    | none =>
      exact absurd ((sortPairs_eq_nil_iff pairs).mp (List.getLast?_eq_none_iff.mp hlast)) hne
    | some q =>
      refine ⟨renderTag (imgAttrs (renderPath useFlask dirOpt q.1)
        (srcsetEntries useFlask dirOpt pairs) classes img_sizes lazy alt), ?_⟩
      simp [make_html, hlast]

theorem build_tag_error_iff_empty_witness :
    (([("a.webp", (1 : Int))] : List (String × Int)) ≠ []) ∧
    (∃ s, make_html [("a.webp", (1 : Int))] none "100vw" false "" none false = .ok s) :=
  ⟨by decide,
    (build_tag_error_iff_empty [("a.webp", (1 : Int))] none "100vw" false "" none
      false).2 (by decide)⟩

/-- Claim C6: for every non-empty filenames list, `build_tag`'s output is a
single `<img>` element whose `srcset` contains exactly one comma-separated
entry per input filename, each annotated with its width descriptor in
ascending order, whose `src` attribute is the widest variant's path; and
when `lazy = false` the output contains no `loading` attribute. -/
theorem build_tag_structure (pairs : List (String × Int)) (classes : Option String)
    (img_sizes : String) (lazy : Bool) (alt : String) (dirOpt : Option String)
    (useFlask : Bool) (hne : pairs ≠ []) :
    ∃ widest,
      (sortPairs pairs).getLast? = some widest ∧
      make_html pairs classes img_sizes lazy alt dirOpt useFlask
        = .ok (renderTag (imgAttrs (renderPath useFlask dirOpt widest.1)
            (srcsetEntries useFlask dirOpt pairs) classes img_sizes lazy alt)) ∧
      (srcsetEntries useFlask dirOpt pairs).length = pairs.length ∧
      List.Sorted wle (sortPairs pairs) ∧
      widest ∈ pairs ∧
      (∀ p ∈ pairs, p.2 ≤ widest.2) ∧
      (lazy = false →
        "loading" ∉ (imgAttrs (renderPath useFlask dirOpt widest.1)
            (srcsetEntries useFlask dirOpt pairs) classes img_sizes lazy
            alt).map Prod.fst) := by
  cases hlast : (sortPairs pairs).getLast? with
  | none =>
    exact absurd ((sortPairs_eq_nil_iff pairs).mp (List.getLast?_eq_none_iff.mp hlast)) hne
  | some widest =>
    refine ⟨widest, rfl, ?_, ?_, ?_, ?_, ?_, ?_⟩
    · simp [make_html, hlast]
    · simp [srcsetEntries, sortPairs_length]
    · exact sortPairs_sorted pairs
    · exact (sortPairs_perm pairs).mem_iff.mp (mem_of_getLastEq _ widest hlast)
    · intro p hp
      exact sorted_le_getLast (sortPairs pairs) (sortPairs_sorted pairs) widest hlast
        p ((sortPairs_perm pairs).mem_iff.mpr hp)
    · intro hlz
      subst hlz
      cases classes with
      | none => simp [imgAttrs]
      | some c => simp [imgAttrs]

theorem build_tag_structure_witness :
    (([("photo-one-400.webp", (400 : Int)), ("photo-one-800.webp", (800 : Int))] :
        List (String × Int)) ≠ []) ∧
    (∃ widest,
      (sortPairs [("photo-one-400.webp", (400 : Int)),
          ("photo-one-800.webp", (800 : Int))]).getLast? = some widest ∧
      make_html [("photo-one-400.webp", (400 : Int)),
          ("photo-one-800.webp", (800 : Int))] none "50vw" false "x" none false
        = .ok (renderTag (imgAttrs (renderPath false none widest.1)
            (srcsetEntries false none [("photo-one-400.webp", (400 : Int)),
              ("photo-one-800.webp", (800 : Int))]) none "50vw" false "x")) ∧
      (srcsetEntries false none [("photo-one-400.webp", (400 : Int)),
          ("photo-one-800.webp", (800 : Int))]).length
        = ([("photo-one-400.webp", (400 : Int)),
            ("photo-one-800.webp", (800 : Int))] : List (String × Int)).length ∧
      List.Sorted wle (sortPairs [("photo-one-400.webp", (400 : Int)),
          ("photo-one-800.webp", (800 : Int))]) ∧
      widest ∈ ([("photo-one-400.webp", (400 : Int)),
          ("photo-one-800.webp", (800 : Int))] : List (String × Int)) ∧
      (∀ p ∈ ([("photo-one-400.webp", (400 : Int)),
          ("photo-one-800.webp", (800 : Int))] : List (String × Int)),
        p.2 ≤ widest.2) ∧
      (false = false →
        "loading" ∉ (imgAttrs (renderPath false none widest.1)
            (srcsetEntries false none [("photo-one-400.webp", (400 : Int)),
              ("photo-one-800.webp", (800 : Int))]) none "50vw" false
            "x").map Prod.fst)) :=
  ⟨by decide,
    build_tag_structure
      [("photo-one-400.webp", (400 : Int)), ("photo-one-800.webp", (800 : Int))]
      none "50vw" false "x" none false (by decide)⟩

/-- The spec's round-trip scenario end to end: the two generated filenames
paired with their widths produce exactly the expected `<img>` tag, with both
`srcset` entries, `sizes="50vw"`, `alt="x"` and no `loading` attribute. -/
theorem make_html_scenario :
    make_html [("photo-one-400.webp", (400 : Int)), ("photo-one-800.webp", (800 : Int))]
        none "50vw" false "x" none false
      = .ok ("<img src=\"photo-one-800.webp\" srcset=\"photo-one-400.webp 400w, " ++
          "photo-one-800.webp 800w\" sizes=\"50vw\" alt=\"x\">") := by
  rfl

end RespImg
